import Mathlib

/-!
Verification of the directory-resolution utilities of `atuin-common`
(`src/atuin-common/src/utils.rs`): `home_dir`, `config_dir`, `data_dir`,
`in_git_repo` / `has_git_dir` and `get_current_dir`.

The process environment is modelled as a total map from variable names to
optionally present string values (`std::env::var` succeeds exactly when the
variable is present).  `PathBuf` values built by these functions are modelled
as strings, with `pathJoin` reproducing `PathBuf::push` for the Unix
separator: an absolute argument replaces the base, otherwise the argument is
appended, inserting `/` unless the base is empty or already ends in the
separator.  The `expect`-panic of `home_dir` on a missing variable is
modelled as `Except.error MissingHomeEnvironment`.
-/

namespace Atuin

/-- The process environment: each variable name is mapped to `some` value
when the variable is set and to `none` when it is unset. -/
def Env : Type := String → Option String

/-- The single failure mode of the resolver: the home-locating environment
variable is absent (`expect` panic in the Rust source). -/
inductive UtilsError where
  | MissingHomeEnvironment
deriving DecidableEq

/-- A Unix path is absolute when it starts with the separator `/`. -/
def isAbsolutePath (s : String) : Bool :=
  match s.data with
  | [] => false
  | c :: _ => c == '/'

/-- Whether a path's string already ends in the separator `/`. -/
def endsWithSep (s : String) : Bool :=
  match s.data.getLast? with
  | some c => c == '/'
  | none => false

/-- `PathBuf::push` / `Path::join` on Unix, on the string representation:
an absolute component replaces the base; otherwise the component is appended,
with a separator inserted unless the base is empty or already ends in one. -/
def pathJoin (base comp : String) : String :=
  if isAbsolutePath comp then comp
  else if base = "" then comp
  else if endsWithSep base then base ++ comp
  else base ++ "/" ++ comp

/-- `home_dir` on non-Windows targets: read `HOME`, panic
(`MissingHomeEnvironment`) when it is unset, otherwise
`PathBuf::from(home)`. -/
def home_dir (env : Env) : Except UtilsError String :=
  match env "HOME" with
  | some home => Except.ok home
  | none => Except.error UtilsError.MissingHomeEnvironment

/-- `home_dir` on Windows targets: identical, reading `USERPROFILE`. -/
def home_dir_windows (env : Env) : Except UtilsError String :=
  match env "USERPROFILE" with
  | some home => Except.ok home
  | none => Except.error UtilsError.MissingHomeEnvironment

/-- `config_dir`: `XDG_CONFIG_HOME`, or else `home_dir().join(".config")`;
the result is then joined with `"atuin"`.  (Modelled on the non-Windows
`home_dir`.) -/
def config_dir (env : Env) : Except UtilsError String :=
  match env "XDG_CONFIG_HOME" with
  | some v => Except.ok (pathJoin v "atuin")
  | none =>
    match home_dir env with
    | Except.ok h => Except.ok (pathJoin (pathJoin h ".config") "atuin")
    | Except.error e => Except.error e

/-- `data_dir`: `XDG_DATA_HOME`, or else
`home_dir().join(".local").join("share")`; the result is then joined with
`"atuin"`. -/
def data_dir (env : Env) : Except UtilsError String :=
  match env "XDG_DATA_HOME" with
  | some v => Except.ok (pathJoin v "atuin")
  | none =>
    match home_dir env with
    | Except.ok h =>
      Except.ok (pathJoin (pathJoin (pathJoin h ".local") "share") "atuin")
    | Except.error e => Except.error e

/-- `get_current_dir`: the value of `PWD` when set; otherwise the process
current directory when obtainable (`env::current_dir()`, modelled as an
`Option String` input since it is ambient OS state); otherwise `""`. -/
def get_current_dir (env : Env) (currentDir : Option String) : String :=
  match env "PWD" with
  | some v => v
  | none =>
    match currentDir with
    | some dir => dir
    | none => ""

/-- A parsed path for the `in_git_repo` walk: whether it is rooted, and its
list of components.  `PathBuf::pop` and `Path::parent` act on this
structure. -/
structure RPath where
  absolute : Bool
  comps : List String
deriving DecidableEq

/-- `Path::parent().is_some()`: false exactly for the empty path and for a
bare root, i.e. exactly when the component list is empty. -/
def RPath.hasParent (p : RPath) : Bool := !p.comps.isEmpty

/-- `PathBuf::pop`: drop the last component (no-op when there is none). -/
def RPath.pop (p : RPath) : RPath := { p with comps := p.comps.dropLast }

/-- `PathBuf::push` of a single relative component. -/
def RPath.pushComp (p : RPath) (c : String) : RPath :=
  { p with comps := p.comps ++ [c] }

/-- The ambient filesystem, as an existence oracle over paths. -/
def FS : Type := RPath → Bool

/-- `has_git_dir(path)`: push `".git"` onto the path and ask the filesystem
whether the result exists. -/
def has_git_dir (fs : FS) (p : RPath) : Bool := fs (p.pushComp ".git")

/-- The `while` loop of `in_git_repo`: while the path has a parent and no
`.git` entry, pop the last component.  Terminates because each pop strictly
decreases the number of components. -/
def gitLoop (fs : FS) (p : RPath) : RPath :=
  if h : p.hasParent && !has_git_dir fs p then
    gitLoop fs p.pop
  else
    p
termination_by p.comps.length
decreasing_by
  simp only [RPath.pop, RPath.hasParent, Bool.and_eq_true] at h ⊢
  have hne : p.comps ≠ [] := by
    intro hnil
    rw [hnil] at h
    simp [List.isEmpty] at h
  calc p.comps.dropLast.length = p.comps.length - 1 := List.length_dropLast _
    _ < p.comps.length := Nat.sub_lt (List.length_pos.mpr hne) Nat.one_pos

/-- `in_git_repo(path)`: run the loop; if the final path still has a parent
the loop stopped on a `.git` hit, so return it, otherwise return `None`. -/
def in_git_repo (fs : FS) (path : RPath) : Option RPath :=
  let gitdir := gitLoop fs path
  if gitdir.hasParent then some gitdir else none

/-- A fuel-indexed version of the loop, returning `none` when the fuel runs
out before the loop's exit condition holds. -/
def gitLoopFuel (fs : FS) : Nat → RPath → Option RPath
  | 0, p => if p.hasParent && !has_git_dir fs p then none else some p
  | Nat.succ n, p =>
    if p.hasParent && !has_git_dir fs p then gitLoopFuel fs n p.pop
    else some p

/-- Fuel-indexed `in_git_repo`. -/
def in_git_repo_fuel (fs : FS) (fuel : Nat) (path : RPath) :
    Option (Option RPath) :=
  (gitLoopFuel fs fuel path).map
    (fun gitdir => if gitdir.hasParent then some gitdir else none)

/-- The empty environment: every variable is unset. -/
def envEmpty : Env := fun _ => none

/-- Environment with only `HOME=/home/user` (as in the source's tests). -/
def envHome : Env := fun k => if k = "HOME" then some "/home/user" else none

/-- Environment with only `HOME` set, to the empty string. -/
def envHomeEmpty : Env := fun k => if k = "HOME" then some "" else none

/-- Environment with only `XDG_CONFIG_HOME=/home/user/custom_config` (as in
the source's tests). -/
def envXdgConfig : Env :=
  fun k => if k = "XDG_CONFIG_HOME" then some "/home/user/custom_config"
           else none

/-- Environment with only `XDG_DATA_HOME=/home/user/custom_data` (as in the
source's tests). -/
def envXdgData : Env :=
  fun k => if k = "XDG_DATA_HOME" then some "/home/user/custom_data" else none

/-- Environment with only `PWD=/tmp/work`. -/
def envPwd : Env := fun k => if k = "PWD" then some "/tmp/work" else none

/-- Unfolding lemma: the loop stops when the exit condition holds. -/
theorem gitLoop_stop (fs : FS) (p : RPath)
    (h : (p.hasParent && !has_git_dir fs p) = false) : gitLoop fs p = p := by
  rw [gitLoop]
  simp [h]

/-- Unfolding lemma: the loop pops once when the guard holds. -/
theorem gitLoop_step (fs : FS) (p : RPath)
    (h : (p.hasParent && !has_git_dir fs p) = true) :
    gitLoop fs p = gitLoop fs p.pop := by
  rw [gitLoop]
  simp [h]

/-- The loop reaches its exit within `p.comps.length` pops: fuel bounded
below by the component count is enough, and yields the loop's value. -/
theorem gitLoopFuel_complete (fs : FS) :
    ∀ n : Nat, ∀ p : RPath, p.comps.length ≤ n →
      gitLoopFuel fs n p = some (gitLoop fs p) := by
  intro n
  induction n with
  | zero =>
    intro p hp
    have hnil : p.comps = [] := List.eq_nil_of_length_eq_zero (Nat.le_zero.mp hp)
    have hcond : (p.hasParent && !has_git_dir fs p) = false := by
      simp [RPath.hasParent, hnil]
    rw [gitLoop_stop fs p hcond]
    simp [gitLoopFuel, hcond]
  | succ n ih =>
    intro p hp
    cases hcond : (p.hasParent && !has_git_dir fs p) with
    | false =>
      rw [gitLoop_stop fs p hcond]
      simp [gitLoopFuel, hcond]
    | true =>
      have hlen : p.pop.comps.length ≤ n := by
        simp only [RPath.pop, List.length_dropLast]
        omega
      rw [gitLoop_step fs p hcond]
      simp only [gitLoopFuel, hcond, if_true]
      exact ih p.pop hlen

/-- C1: whenever `XDG_CONFIG_HOME` is set to `V` — whatever the rest of the
environment holds, in particular whether `HOME` is set, and with no
dependence on any filesystem state — `config_dir` succeeds with `V` joined
with the fixed segment `atuin`. -/
theorem config_dir_xdg_override (env : Env) (V : String)
    (hx : env "XDG_CONFIG_HOME" = some V) :
    config_dir env = Except.ok (pathJoin V "atuin") := by
  simp [config_dir, hx]

/-- Witness for C1, at the source's own test input. -/
theorem config_dir_xdg_override_witness :
    envXdgConfig "XDG_CONFIG_HOME" = some "/home/user/custom_config" ∧
    config_dir envXdgConfig = Except.ok "/home/user/custom_config/atuin" :=
  ⟨rfl, config_dir_xdg_override envXdgConfig "/home/user/custom_config" rfl⟩

/-- C2: with `XDG_CONFIG_HOME` unset and `HOME = H`, `config_dir` succeeds
with `H` joined with `.config` joined with `atuin`; for `H = /home/user`
this is `/home/user/.config/atuin`. -/
theorem config_dir_home_fallback (env : Env) (H : String)
    (hx : env "XDG_CONFIG_HOME" = none) (hh : env "HOME" = some H) :
    config_dir env = Except.ok (pathJoin (pathJoin H ".config") "atuin") ∧
    (H = "/home/user" →
      config_dir env = Except.ok "/home/user/.config/atuin") := by
  have hmain : config_dir env =
      Except.ok (pathJoin (pathJoin H ".config") "atuin") := by
    simp [config_dir, home_dir, hx, hh]
  refine ⟨hmain, fun hH => ?_⟩
  subst hH
  exact hmain

/-- Witness for C2, at the source's own test input. -/
theorem config_dir_home_fallback_witness :
    envHome "XDG_CONFIG_HOME" = none ∧ envHome "HOME" = some "/home/user" ∧
    config_dir envHome = Except.ok "/home/user/.config/atuin" :=
  ⟨rfl, rfl,
    (config_dir_home_fallback envHome "/home/user" rfl rfl).2 rfl⟩

/-- C3: whenever `XDG_DATA_HOME` is set to `V` — whatever the rest of the
environment holds, and with no dependence on any filesystem state —
`data_dir` succeeds with `V` joined with the fixed segment `atuin`. -/
theorem data_dir_xdg_override (env : Env) (V : String)
    (hx : env "XDG_DATA_HOME" = some V) :
    data_dir env = Except.ok (pathJoin V "atuin") := by
  simp [data_dir, hx]

/-- Witness for C3, at the source's own test input. -/
theorem data_dir_xdg_override_witness :
    envXdgData "XDG_DATA_HOME" = some "/home/user/custom_data" ∧
    data_dir envXdgData = Except.ok "/home/user/custom_data/atuin" :=
  ⟨rfl, data_dir_xdg_override envXdgData "/home/user/custom_data" rfl⟩

/-- C4: with `XDG_DATA_HOME` unset and `HOME = H`, `data_dir` succeeds with
`H` joined with `.local` joined with `share` joined with `atuin`; for
`H = /home/user` this is `/home/user/.local/share/atuin`. -/
theorem data_dir_home_fallback (env : Env) (H : String)
    (hx : env "XDG_DATA_HOME" = none) (hh : env "HOME" = some H) :
    data_dir env =
      Except.ok (pathJoin (pathJoin (pathJoin H ".local") "share") "atuin") ∧
    (H = "/home/user" →
      data_dir env = Except.ok "/home/user/.local/share/atuin") := by
  have hmain : data_dir env =
      Except.ok (pathJoin (pathJoin (pathJoin H ".local") "share") "atuin") := by
    simp [data_dir, home_dir, hx, hh]
  refine ⟨hmain, fun hH => ?_⟩
  subst hH
  exact hmain

/-- Witness for C4, at the source's own test input. -/
theorem data_dir_home_fallback_witness :
    envHome "XDG_DATA_HOME" = none ∧ envHome "HOME" = some "/home/user" ∧
    data_dir envHome = Except.ok "/home/user/.local/share/atuin" :=
  ⟨rfl, rfl, (data_dir_home_fallback envHome "/home/user" rfl rfl).2 rfl⟩

/-- C5: with the home-locating variable unset (`HOME` on POSIX,
`USERPROFILE` on Windows), `home_dir` produces the `MissingHomeEnvironment`
failure — it returns no path at all, empty or default. -/
theorem home_dir_missing_env (envP envW : Env)
    (hp : envP "HOME" = none) (hw : envW "USERPROFILE" = none) :
    home_dir envP = Except.error UtilsError.MissingHomeEnvironment ∧
    home_dir_windows envW = Except.error UtilsError.MissingHomeEnvironment := by
  constructor
  · simp [home_dir, hp]
  · simp [home_dir_windows, hw]

/-- Witness for C5, in the fully empty environment. -/
theorem home_dir_missing_env_witness :
    envEmpty "HOME" = none ∧ envEmpty "USERPROFILE" = none ∧
    home_dir envEmpty = Except.error UtilsError.MissingHomeEnvironment ∧
    home_dir_windows envEmpty = Except.error UtilsError.MissingHomeEnvironment :=
  ⟨rfl, rfl, (home_dir_missing_env envEmpty envEmpty rfl rfl).1,
    (home_dir_missing_env envEmpty envEmpty rfl rfl).2⟩

/-- C6: `config_dir` fails exactly when both `XDG_CONFIG_HOME` and `HOME`
are unset, and `data_dir` fails exactly when both `XDG_DATA_HOME` and
`HOME` are unset — failure happens precisely when the home fallback is
needed and the home variable is absent. -/
theorem dir_failure_iff (env : Env) :
    (config_dir env = Except.error UtilsError.MissingHomeEnvironment ↔
      env "XDG_CONFIG_HOME" = none ∧ env "HOME" = none) ∧
    (data_dir env = Except.error UtilsError.MissingHomeEnvironment ↔
      env "XDG_DATA_HOME" = none ∧ env "HOME" = none) := by
  constructor
  · cases hx : env "XDG_CONFIG_HOME" <;> cases hh : env "HOME" <;>
      simp [config_dir, home_dir, hx, hh]
  · cases hx : env "XDG_DATA_HOME" <;> cases hh : env "HOME" <;>
      simp [data_dir, home_dir, hx, hh]

/-- C7 fails on the code: with `HOME` set to the empty string, `home_dir`
succeeds and returns the empty path, so it is not the case that `home_dir`
always either fails or returns a non-empty path. -/
theorem home_dir_empty_counterexample :
    ¬ (∀ env : Env, ∀ s : String, home_dir env = Except.ok s → s ≠ "") :=
  fun h => h envHomeEmpty "" rfl rfl

/-- C7 amended: `home_dir` fails exactly when `HOME` is unset; when `HOME`
is set to a value `H` it succeeds returning `H` unchanged, even when `H` is
the empty string (so the returned path can be empty). -/
theorem home_dir_passthrough (env : Env) :
    (∀ H : String, env "HOME" = some H → home_dir env = Except.ok H) ∧
    (env "HOME" = none →
      home_dir env = Except.error UtilsError.MissingHomeEnvironment) := by
  constructor
  · intro H hh
    simp [home_dir, hh]
  · intro hh
    simp [home_dir, hh]

/-- Witness for the amended C7, at `HOME` set to the empty string. -/
theorem home_dir_passthrough_witness :
    envHomeEmpty "HOME" = some "" ∧ home_dir envHomeEmpty = Except.ok "" :=
  ⟨rfl, (home_dir_passthrough envHomeEmpty).1 "" rfl⟩

/-- C8: all four resolvers are deterministic in the environment — two
environments that agree on the four consulted variables (`HOME`,
`USERPROFILE`, `XDG_CONFIG_HOME`, `XDG_DATA_HOME`) produce identical
results, successes and failures alike, so nothing else influences the
outcome. -/
theorem dirs_deterministic (env1 env2 : Env)
    (hH : env1 "HOME" = env2 "HOME")
    (hU : env1 "USERPROFILE" = env2 "USERPROFILE")
    (hC : env1 "XDG_CONFIG_HOME" = env2 "XDG_CONFIG_HOME")
    (hD : env1 "XDG_DATA_HOME" = env2 "XDG_DATA_HOME") :
    home_dir env1 = home_dir env2 ∧
    home_dir_windows env1 = home_dir_windows env2 ∧
    config_dir env1 = config_dir env2 ∧
    data_dir env1 = data_dir env2 := by
  refine ⟨?_, ?_, ?_, ?_⟩ <;>
    simp only [home_dir, home_dir_windows, config_dir, data_dir, hH, hU, hC, hD]

/-- Witness for C8: two (definitionally equal) environments. -/
theorem dirs_deterministic_witness :
    home_dir envHome = home_dir envHome ∧
    home_dir_windows envHome = home_dir_windows envHome ∧
    config_dir envHome = config_dir envHome ∧
    data_dir envHome = data_dir envHome :=
  dirs_deterministic envHome envHome rfl rfl rfl rfl

/-- C9: `in_git_repo` terminates for every path and filesystem — the fuel
version, given fuel equal to the number of path components, halts (returns
`some`) and computes exactly `in_git_repo`, since each iteration runs only
when the path has a parent and popping strictly decreases the component
count. -/
theorem in_git_repo_terminates (fs : FS) (p : RPath) :
    in_git_repo_fuel fs p.comps.length p = some (in_git_repo fs p) := by
  unfold in_git_repo_fuel in_git_repo
  rw [gitLoopFuel_complete fs p.comps.length p (Nat.le_refl _)]
  rfl

/-- C10: `get_current_dir` is total — it never fails, returning the value of
`PWD` when set, else the process current directory when obtainable, else the
empty string. -/
theorem get_current_dir_total (env : Env) (currentDir : Option String) :
    (∀ v : String, env "PWD" = some v → get_current_dir env currentDir = v) ∧
    (env "PWD" = none → ∀ d : String, currentDir = some d →
      get_current_dir env currentDir = d) ∧
    (env "PWD" = none → currentDir = none →
      get_current_dir env currentDir = "") := by
  refine ⟨fun v hv => ?_, fun hp d hd => ?_, fun hp hd => ?_⟩ <;>
    simp [get_current_dir, *]

/-- Witness for C10: `PWD` set wins over a present current directory. -/
theorem get_current_dir_total_witness :
    envPwd "PWD" = some "/tmp/work" ∧
    get_current_dir envPwd (some "/elsewhere") = "/tmp/work" :=
  ⟨rfl, (get_current_dir_total envPwd (some "/elsewhere")).1 "/tmp/work" rfl⟩

end Atuin
